import Mathlib

/-!
Verification of the post-load scene-graph reconciliation pipeline of the
`space-modeller` IFC viewer (ifc-viewer.component.ts, plus the alternative
component version shipped in the repository's related documents).

The pipeline's four steps are embedded shallowly:
  * Mesh-Attachment Verifier  — the manual fragment-attachment block of
    `loadIfcFile` (ifc-viewer.component.ts lines 314-324);
  * Material Sanitizer        — `ensureMaterialsVisible`;
  * Bounding-Volume Camera Fitter — `centerCameraOnModel` (and the variant
    `fitCameraToModel` of the alternative component);
  * Diagnostic Reporter       — `logSceneGraphDetails`.

Machine floating-point values are modelled as exact rationals; the calls into
the host math library (`Math.tan`, `Math.sqrt` inside `Vector3.distanceTo` /
`Vector3.normalize`) are modelled as oracle parameters, since the component
only consumes their results.
-/

/-- Exact-arithmetic model of `THREE.Vector3`. -/
structure V3 where
  x : ℚ
  y : ℚ
  z : ℚ
deriving DecidableEq

instance : Add V3 := ⟨fun a b => ⟨a.x + b.x, a.y + b.y, a.z + b.z⟩⟩

instance : Sub V3 := ⟨fun a b => ⟨a.x - b.x, a.y - b.y, a.z - b.z⟩⟩

/-- `Vector3.multiplyScalar`. -/
def V3.scale (c : ℚ) (v : V3) : V3 := ⟨c * v.x, c * v.y, c * v.z⟩

/-- Squared length, as in `Vector3.lengthSq`. -/
def V3.lengthSq (v : V3) : ℚ := v.x ^ 2 + v.y ^ 2 + v.z ^ 2

/-- Squared distance between two points (`Vector3.distanceToSquared`). -/
def V3.distSq (a b : V3) : ℚ := (a - b).lengthSq

theorem V3.add_def (a b : V3) : a + b = ⟨a.x + b.x, a.y + b.y, a.z + b.z⟩ := rfl

theorem V3.sub_def (a b : V3) : a - b = ⟨a.x - b.x, a.y - b.y, a.z - b.z⟩ := rfl

/-- `THREE.FrontSide` / `THREE.BackSide` / `THREE.DoubleSide`. -/
inductive Side where
  | front
  | back
  | double
deriving DecidableEq

/-- The material fields read or written by `ensureMaterialsVisible`.
`color = none` models a material without a usable `color` field (the source
probes `'color' in material && material.color`). The color itself is the hex
value returned by `Color.getHex()`. -/
structure Material where
  visible : Bool
  transparent : Bool
  opacity : ℚ
  side : Side
  color : Option ℕ
  needsUpdate : Bool
deriving DecidableEq

/-- The `material` field of a `THREE.Mesh`: `null`/`undefined`, a single
material, or an array of materials whose entries may themselves be null. -/
inductive MatField where
  | nl
  | single (m : Material)
  | array (ms : List (Option Material))
deriving DecidableEq

/-- Scalar data of one scene-graph node. `geomVerts` holds the world-local
vertex positions of the node's geometry (`none`: no geometry, or a geometry
without a `position` attribute). `position` is the node's translation relative
to its parent. -/
structure NodeData where
  isMesh : Bool
  visible : Bool
  frustumCulled : Bool
  position : V3
  geomVerts : Option (List V3)
  matField : MatField
deriving DecidableEq

/-- Model of `THREE.Object3D`: node data plus the ordered list of children. -/
inductive Obj where
  | mk (data : NodeData) (children : List Obj)

def Obj.data : Obj → NodeData
  | .mk d _ => d

def Obj.children : Obj → List Obj
  | .mk _ cs => cs

def Obj.withChildren : Obj → List Obj → Obj
  | .mk d _, cs => .mk d cs

theorem Obj.eta (o : Obj) : Obj.mk o.data o.children = o := by
  cases o; rfl

@[simp]
theorem Obj.data_mk (d : NodeData) (cs : List Obj) : (Obj.mk d cs).data = d := rfl

@[simp]
theorem Obj.children_mk (d : NodeData) (cs : List Obj) :
    (Obj.mk d cs).children = cs := rfl

/-- Model of `THREE.Box3` (a non-degenerate min/max corner pair; the empty
box is represented externally by `Option Box3 = none`). -/
structure Box3 where
  bmin : V3
  bmax : V3
deriving DecidableEq

/-- `Box3.expandByPoint`. -/
def Box3.expandByPoint (b : Box3) (p : V3) : Box3 :=
  ⟨⟨min b.bmin.x p.x, min b.bmin.y p.y, min b.bmin.z p.z⟩,
   ⟨max b.bmax.x p.x, max b.bmax.y p.y, max b.bmax.z p.z⟩⟩

/-- Expand an optional box by a point (an empty box becomes the point box). -/
def expandOpt : Option Box3 → V3 → Option Box3
  | none, p => some ⟨p, p⟩
  | some b, p => some (b.expandByPoint p)

/-- `Box3.getCenter` on a non-empty box. -/
def Box3.getCenter (b : Box3) : V3 :=
  ⟨(b.bmin.x + b.bmax.x) / 2, (b.bmin.y + b.bmax.y) / 2, (b.bmin.z + b.bmax.z) / 2⟩

/-- `Box3.getSize` on a non-empty box. -/
def Box3.getSize (b : Box3) : V3 :=
  ⟨b.bmax.x - b.bmin.x, b.bmax.y - b.bmin.y, b.bmax.z - b.bmin.z⟩

/-- `Math.max(size.x, size.y, size.z)` over a box's extents. -/
def Box3.maxDim (b : Box3) : ℚ :=
  max b.getSize.x (max b.getSize.y b.getSize.z)

mutual

/-- `Box3.setFromObject`: accumulate the world-space positions of every
vertex in the subtree (translations only; the component never rotates or
scales the loaded model). -/
def bboxObj (off : V3) (acc : Option Box3) : Obj → Option Box3
  | .mk d cs =>
    let w := off + d.position
    let acc' := match d.geomVerts with
      | some vs => vs.foldl (fun a v => expandOpt a (w + v)) acc
      | none => acc
    bboxList w acc' cs

def bboxList (off : V3) (acc : Option Box3) : List Obj → Option Box3
  | [] => acc
  | c :: cs => bboxList off (bboxObj off acc c) cs

end

/-- `new THREE.Box3().setFromObject(model)`; `none` is the empty box. -/
def boundingBox (o : Obj) : Option Box3 :=
  bboxObj ⟨0, 0, 0⟩ none o

/-- One entry of `model.items` (a `FragmentsModel` fragment): the fragment's
`mesh` property may be null. -/
structure Fragment where
  mesh : Option Obj

/-- The `for (const [key, fragment] of model.items)` loop of `loadIfcFile`
(lines 317-322): append each non-null fragment mesh as a child of the root
and count the additions. -/
def attachLoop : Obj → ℕ → List (ℕ × Fragment) → Obj × ℕ
  | root, count, [] => (root, count)
  | root, count, (_, frag) :: rest =>
    match frag.mesh with
    | some m => attachLoop (root.withChildren (root.children ++ [m])) (count + 1) rest
    | none => attachLoop root count rest

/-- The manual fragment-attachment block of `loadIfcFile` (lines 314-324):
`if (model.object.children.length === 0 && model.items && model.items.size > 0)`
run the attachment loop, else do nothing. Returns the repaired root and the
`addedCount` diagnostic. -/
def reconcileAttachment (root : Obj) (items : List (ℕ × Fragment)) : Obj × ℕ :=
  if root.children.length = 0 ∧ 0 < items.length then
    attachLoop root 0 items
  else
    (root, 0)

/-! ### Helper lemmas for the attachment step -/

theorem attachLoop_spec (items : List (ℕ × Fragment)) (o : Obj) (n : ℕ) :
    (attachLoop o n items).1
        = Obj.mk o.data (o.children ++ items.filterMap (fun kv => kv.2.mesh)) ∧
      (attachLoop o n items).2
        = n + (items.filterMap (fun kv => kv.2.mesh)).length := by
  induction items generalizing o n with
  | nil =>
    simp [attachLoop, Obj.eta]
  | cons kv rest ih =>
    cases hm : kv.2.mesh with
    | none =>
      simpa [attachLoop, hm, List.filterMap_cons] using ih o n
    | some m =>
      have h := ih (o.withChildren (o.children ++ [m])) (n + 1)
      cases o with
      | mk d cs =>
        simpa [attachLoop, hm, List.filterMap_cons, Obj.withChildren, Obj.data,
          Obj.children, Nat.add_comm, Nat.add_assoc, Nat.add_left_comm] using h

theorem filterMap_length_of_all_isSome {α β : Type} (f : α → Option β)
    (l : List α) (h : ∀ a ∈ l, (f a).isSome) :
    (l.filterMap f).length = l.length := by
  induction l with
  | nil => rfl
  | cons a rest ih =>
    have ha : (f a).isSome := h a (List.mem_cons_self a rest)
    cases hfa : f a with
    | none => simp [hfa] at ha
    | some b =>
      simp only [List.filterMap_cons, hfa, List.length_cons]
      rw [ih (fun x hx => h x (List.mem_cons_of_mem a hx))]

/-! ### Concrete fixtures used by witnesses and counterexamples -/

/-- A default material in the state the external parser typically produces. -/
def baseMat : Material :=
  { visible := true, transparent := false, opacity := 1, side := Side.double,
    color := some 0xaaaaaa, needsUpdate := false }

/-- Node data of a plain (non-mesh) container with no geometry. -/
def groupData : NodeData :=
  { isMesh := false, visible := true, frustumCulled := true,
    position := ⟨0, 0, 0⟩, geomVerts := none, matField := MatField.nl }

/-- A mesh node carrying the given vertices and one material. -/
def meshNode (vs : List V3) (m : Material) : Obj :=
  Obj.mk { isMesh := true, visible := true, frustumCulled := true,
           position := ⟨0, 0, 0⟩, geomVerts := some vs,
           matField := MatField.single m } []

/-- An empty root container, as `model.object` before the repair. -/
def root0 : Obj := Obj.mk groupData []

/-- A root that already has one child (the no-op branch of the repair). -/
def root1 : Obj := Obj.mk groupData [meshNode [⟨0, 0, 0⟩] baseMat]

/-- Two fragments, both with non-null meshes. -/
def items0 : List (ℕ × Fragment) :=
  [(1, ⟨some (meshNode [⟨0, 0, 0⟩, ⟨1, 1, 1⟩] baseMat)⟩),
   (2, ⟨some (meshNode [⟨2, 2, 2⟩] baseMat)⟩)]

/-! ### Claims C1 and C2 -/

/-- C1: for every root scene node with zero children and non-empty item
table, the attachment repair appends the mesh of each item with a non-null
mesh payload as a child of root in the item table's iteration order, and when
every item has a non-null mesh the resulting child count equals the item
count. -/
theorem attachment_completeness (root : Obj) (items : List (ℕ × Fragment))
    (hroot : root.children = []) (hitems : 0 < items.length) :
    (reconcileAttachment root items).1.children
        = items.filterMap (fun kv => kv.2.mesh) ∧
      ((∀ kv ∈ items, (kv.2.mesh).isSome) →
        (reconcileAttachment root items).1.children.length = items.length) := by
  have hgate : root.children.length = 0 ∧ 0 < items.length :=
    ⟨by simp [hroot], hitems⟩
  have hloop := attachLoop_spec items root 0
  constructor
  · rw [reconcileAttachment, if_pos hgate, hloop.1, Obj.children_mk, hroot,
      List.nil_append]
  · intro hall
    rw [reconcileAttachment, if_pos hgate, hloop.1, Obj.children_mk, hroot,
      List.nil_append]
    exact filterMap_length_of_all_isSome _ items hall

/-- Witness for C1 at a concrete empty root and a two-item table. -/
theorem attachment_completeness_witness :
    root0.children = [] ∧ 0 < items0.length ∧
      (reconcileAttachment root0 items0).1.children.length = items0.length :=
  ⟨rfl, by decide,
    (attachment_completeness root0 items0 rfl (by decide)).2 (by decide)⟩

/-- C2: the attachment repair is idempotent — running it twice leaves the
root identical to running it once — and whenever the root already has
children it performs zero attachments, returning the root unchanged. -/
theorem attachment_repair_idempotent (root : Obj) (items : List (ℕ × Fragment)) :
    (reconcileAttachment (reconcileAttachment root items).1 items).1
        = (reconcileAttachment root items).1 ∧
      (0 < root.children.length → reconcileAttachment root items = (root, 0)) := by
  constructor
  · by_cases hgate : root.children.length = 0 ∧ 0 < items.length
    · have hloop := attachLoop_spec items root 0
      have hr1 : (reconcileAttachment root items).1
          = Obj.mk root.data (root.children ++ items.filterMap fun kv => kv.2.mesh) := by
        rw [reconcileAttachment, if_pos hgate, hloop.1]
      rw [hr1]
      by_cases hfm : items.filterMap (fun kv => kv.2.mesh) = []
      · have hgate' :
            (Obj.mk root.data
                (root.children ++ items.filterMap fun kv => kv.2.mesh)).children.length = 0
              ∧ 0 < items.length :=
          ⟨by simp [hfm, List.length_eq_zero.mp hgate.1], hgate.2⟩
        rw [reconcileAttachment, if_pos hgate']
        have hloop2 := attachLoop_spec items
          (Obj.mk root.data (root.children ++ items.filterMap fun kv => kv.2.mesh)) 0
        rw [hloop2.1]
        simp [hfm]
      · have hgate' :
            ¬ ((Obj.mk root.data
                  (root.children ++ items.filterMap fun kv => kv.2.mesh)).children.length = 0
                ∧ 0 < items.length) := by
          intro hc
          exact hfm (by
            have h0 := hc.1
            simp only [Obj.children_mk, List.length_append, Nat.add_eq_zero] at h0
            exact List.length_eq_zero.mp h0.2)
        rw [reconcileAttachment, if_neg hgate']
    · have hr0 : reconcileAttachment root items = (root, 0) := by
        rw [reconcileAttachment, if_neg hgate]
      rw [hr0]
      exact congrArg Prod.fst hr0
  · intro hpos
    have hgate : ¬ (root.children.length = 0 ∧ 0 < items.length) := by
      intro hc
      omega
    rw [reconcileAttachment, if_neg hgate]

/-- Witness for C2: a root with one pre-existing child is returned unchanged
with zero attachments even though the item table is non-empty. -/
theorem attachment_repair_idempotent_witness :
    0 < root1.children.length ∧ reconcileAttachment root1 items0 = (root1, 0) :=
  ⟨by decide, (attachment_repair_idempotent root1 items0).2 (by decide)⟩

/-! ### Material Sanitizer (`ensureMaterialsVisible`, lines 476-525) -/

/-- The per-material body of the `materials.forEach` callback (lines 490-518):
force visibility, reset zero opacity on transparent materials, switch
front-only culling to double-sided, mark for recompute, replace a pure-black
color by gray. Returns the fixed material and its contribution to the
`materialsFixed` counter. -/
def sanitizeMaterial (m : Material) : Material × ℕ :=
  let m1 := { m with visible := true }
  let r2 : Material × ℕ :=
    if m1.transparent ∧ m1.opacity = 0 then ({ m1 with opacity := 1 }, 1) else (m1, 0)
  let r3 : Material × ℕ :=
    if r2.1.side = Side.front then ({ r2.1 with side := Side.double }, r2.2 + 1) else r2
  let m4 := { r3.1 with needsUpdate := true }
  match m4.color with
  | some c => if c = 0 then ({ m4 with color := some 0xaaaaaa }, r3.2 + 1) else (m4, r3.2)
  | none => (m4, r3.2)

/-- One slot of the materials array: the `if (material)` guard skips null
entries. -/
def sanitizeSlot : Option Material → Option Material × ℕ
  | none => (none, 0)
  | some m => ((sanitizeMaterial m).1, (sanitizeMaterial m).2)

def sanitizeMats : List (Option Material) → List (Option Material) × ℕ
  | [] => ([], 0)
  | s :: rest =>
    ((sanitizeSlot s).1 :: (sanitizeMats rest).1, (sanitizeSlot s).2 + (sanitizeMats rest).2)

/-- `Array.isArray(child.material) ? child.material : [child.material]`
followed by the forEach: a null field becomes `[null]` (skipped), a single
material a one-element array. -/
def sanitizeMatField : MatField → MatField × ℕ
  | .nl => (.nl, 0)
  | .single m => (.single (sanitizeMaterial m).1, (sanitizeMaterial m).2)
  | .array ms => (.array (sanitizeMats ms).1, (sanitizeMats ms).2)

mutual

/-- `model.traverse` of `ensureMaterialsVisible`: on every mesh node force
`visible = true`, disable frustum culling, and sanitize its materials,
accumulating the `materialsFixed` counter over the whole subtree. -/
def sanitizeObj : Obj → Obj × ℕ
  | .mk d cs =>
    if d.isMesh then
      Prod.mk
        (Obj.mk
          { d with
            visible := true
            frustumCulled := false
            matField := (sanitizeMatField d.matField).1 }
          (sanitizeList cs).1)
        ((sanitizeMatField d.matField).2 + (sanitizeList cs).2)
    else
      (.mk d (sanitizeList cs).1, (sanitizeList cs).2)

def sanitizeList : List Obj → List Obj × ℕ
  | [] => ([], 0)
  | c :: cs =>
    ((sanitizeObj c).1 :: (sanitizeList cs).1, (sanitizeObj c).2 + (sanitizeList cs).2)

end

/-- `ensureMaterialsVisible(model)`: returns the sanitized subtree and the
`materialsFixed` count it logs. -/
def ensureMaterialsVisible (model : Obj) : Obj × ℕ :=
  sanitizeObj model

/-- The (non-null) materials reachable through one `material` field. -/
def matFieldMaterials : MatField → List Material
  | .nl => []
  | .single m => [m]
  | .array ms => ms.filterMap id

mutual

/-- All non-null materials attached to mesh nodes of a subtree, in traversal
order. -/
def objMaterials : Obj → List Material
  | .mk d cs =>
    (if d.isMesh then matFieldMaterials d.matField else []) ++ objListMaterials cs

def objListMaterials : List Obj → List Material
  | [] => []
  | c :: cs => objMaterials c ++ objListMaterials cs

end

/-! ### Helper lemmas for the sanitizer -/

theorem sanitizeMats_materials (ms : List (Option Material)) :
    (sanitizeMats ms).1.filterMap id
      = (ms.filterMap id).map (fun m => (sanitizeMaterial m).1) := by
  induction ms with
  | nil => rfl
  | cons s rest ih =>
    cases s with
    | none => simpa [sanitizeMats, sanitizeSlot] using ih
    | some m => simpa [sanitizeMats, sanitizeSlot] using ih

theorem matFieldMaterials_sanitize (f : MatField) :
    matFieldMaterials (sanitizeMatField f).1
      = (matFieldMaterials f).map (fun m => (sanitizeMaterial m).1) := by
  cases f with
  | nl => rfl
  | single m => rfl
  | array ms => simpa [sanitizeMatField, matFieldMaterials] using sanitizeMats_materials ms

mutual

theorem objMaterials_sanitize (o : Obj) :
    objMaterials (sanitizeObj o).1
      = (objMaterials o).map (fun m => (sanitizeMaterial m).1) := by
  cases o with
  | mk d cs =>
    by_cases hm : d.isMesh
    · simp [sanitizeObj, objMaterials, hm, matFieldMaterials_sanitize,
        objListMaterials_sanitize cs]
    · simp [sanitizeObj, objMaterials, hm, objListMaterials_sanitize cs]

theorem objListMaterials_sanitize (cs : List Obj) :
    objListMaterials (sanitizeList cs).1
      = (objListMaterials cs).map (fun m => (sanitizeMaterial m).1) := by
  cases cs with
  | nil => rfl
  | cons c rest =>
    simp [sanitizeList, objListMaterials, objMaterials_sanitize c,
      objListMaterials_sanitize rest]

end

/-! ### Claims C6, C7 and C10 -/

/-- A material whose only defect is `visible = false`: the sanitizer repairs
it (visibility forcing) yet counts no fix. -/
def matVisOnly : Material :=
  { visible := false, transparent := false, opacity := 1, side := Side.double,
    color := some 0xaaaaaa, needsUpdate := false }

/-- Counterexample to C6: the visibility/frustum correction does NOT count
towards the fix counter. Sanitizing a mesh whose material has
`visible = false` (and no other defect) applies the visibility correction —
the output material has `visible = true` — yet the returned fix count is 0,
not 1, so the four corrections do not all count independently. -/
theorem sanitize_visibility_not_counted :
    matVisOnly.visible = false ∧
      (ensureMaterialsVisible (meshNode [] matVisOnly)).2 = 0 ∧
      ((ensureMaterialsVisible (meshNode [] matVisOnly)).1).data.matField
        = MatField.single
            { visible := true, transparent := false, opacity := 1,
              side := Side.double, color := some 0xaaaaaa, needsUpdate := true } := by
  decide

/-- C6 (amended): the sanitizer never throws and its counter decomposes as
the independent sum of the three conditional corrections — zero opacity on a
transparent material, front-only culling, pure-black color — while the
unconditional visibility forcing is applied but never counted; in particular
a material with `transparent = true` and `opacity = 0` is reset to opacity
1.0 and contributes exactly 1 in the opacity category. -/
theorem sanitize_fix_counting (m : Material) :
    (sanitizeMaterial m).2
        = ((if m.transparent ∧ m.opacity = 0 then 1 else 0)
            + (if m.side = Side.front then 1 else 0))
          + (if m.color = some 0 then 1 else 0) ∧
      (sanitizeMaterial m).1.visible = true ∧
      (m.transparent ∧ m.opacity = 0 → (sanitizeMaterial m).1.opacity = 1) := by
  obtain ⟨v, t, o, s, c, n⟩ := m
  cases c with
  | none =>
    simp only [sanitizeMaterial]
    split_ifs <;> simp_all
  | some cv =>
    simp only [sanitizeMaterial]
    split_ifs <;> simp_all

/-- A material with the zero-opacity defect and no other defect. -/
def matZeroOpacity : Material :=
  { visible := true, transparent := true, opacity := 0, side := Side.double,
    color := some 0xaaaaaa, needsUpdate := false }

/-- Witness for C6 at the zero-opacity material: count 1, opacity reset. -/
theorem sanitize_fix_counting_witness :
    ((matZeroOpacity.transparent ∧ matZeroOpacity.opacity = 0) : Prop) ∧
      (sanitizeMaterial matZeroOpacity).2 = 1 ∧
      (sanitizeMaterial matZeroOpacity).1.opacity = 1 :=
  ⟨by decide,
    by rw [(sanitize_fix_counting matZeroOpacity).1]; decide,
    (sanitize_fix_counting matZeroOpacity).2.2 (by decide)⟩

/-- C7: every material of the sanitized subtree is the per-material fix of
the corresponding input material; a pure-black color (hex 0) is reassigned to
the neutral mid-gray 0xaaaaaa (which is non-black), and any non-black color
is left unchanged. -/
theorem black_color_correction (model : Obj) :
    objMaterials (ensureMaterialsVisible model).1
        = (objMaterials model).map (fun m => (sanitizeMaterial m).1) ∧
      (∀ m : Material, m.color = some 0 →
        (sanitizeMaterial m).1.color = some 0xaaaaaa) ∧
      (∀ (m : Material) (cv : ℕ), m.color = some cv → cv ≠ 0 →
        (sanitizeMaterial m).1.color = some cv) ∧
      (0xaaaaaa : ℕ) ≠ 0 := by
  refine ⟨objMaterials_sanitize model, ?_, ?_, by decide⟩
  · intro m hm
    obtain ⟨v, t, o, s, c, n⟩ := m
    simp only [Material.mk.injEq] at hm
    subst hm
    simp only [sanitizeMaterial]
    split_ifs <;> simp_all
  · intro m cv hm hcv
    obtain ⟨v, t, o, s, c, n⟩ := m
    simp only [Material.mk.injEq] at hm
    subst hm
    simp only [sanitizeMaterial]
    split_ifs <;> simp_all

/-- A material with a pure-black color and no other defect. -/
def matBlack : Material :=
  { visible := true, transparent := false, opacity := 1, side := Side.double,
    color := some 0, needsUpdate := false }

/-- A material with a red (non-black) color. -/
def matRed : Material :=
  { visible := true, transparent := false, opacity := 1, side := Side.double,
    color := some 0xff0000, needsUpdate := false }

/-- Witness for C7: black becomes gray, red stays red. -/
theorem black_color_correction_witness :
    (sanitizeMaterial matBlack).1.color = some 0xaaaaaa ∧
      (sanitizeMaterial matRed).1.color = some 0xff0000 :=
  ⟨(black_color_correction root0).2.1 matBlack rfl,
    (black_color_correction root0).2.2.1 matRed 0xff0000 rfl (by decide)⟩

/-- C10: on a material without a usable color field the color check is
skipped without raising — the color stays absent and the fix count reduces to
the opacity and culling categories alone, with no color contribution. -/
theorem sanitize_missing_color_safe (m : Material) (h : m.color = none) :
    (sanitizeMaterial m).1.color = none ∧
      (sanitizeMaterial m).2
        = (if m.transparent ∧ m.opacity = 0 then 1 else 0)
          + (if m.side = Side.front then 1 else 0) := by
  obtain ⟨v, t, o, s, c, n⟩ := m
  simp only [Material.mk.injEq] at h
  subst h
  simp only [sanitizeMaterial]
  split_ifs <;> simp_all

/-- A material without a color field. -/
def matNoColor : Material :=
  { visible := true, transparent := false, opacity := 1, side := Side.double,
    color := none, needsUpdate := false }

/-- Witness for C10 at a colorless material: no raise, color stays absent,
count 0. -/
theorem sanitize_missing_color_safe_witness :
    matNoColor.color = none ∧
      (sanitizeMaterial matNoColor).1.color = none ∧
      (sanitizeMaterial matNoColor).2 = 0 :=
  ⟨rfl, (sanitize_missing_color_safe matNoColor rfl).1,
    by rw [(sanitize_missing_color_safe matNoColor rfl).2]; decide⟩

/-! ### Diagnostic Reporter (`logSceneGraphDetails`, lines 403-448) -/

/-- JS truthiness of the `material` field, as tested by
`if (child.material) materialCount++`. -/
def MatField.present : MatField → Bool
  | .nl => false
  | .single _ => true
  | .array _ => true

mutual

/-- The `model.traverse` aggregation of the reporter: number of meshes,
total vertex count of their geometries' position attributes, and the number
of meshes with a truthy material field. -/
def countsObj : Obj → ℕ × ℕ × ℕ
  | .mk d cs =>
    let here : ℕ × ℕ × ℕ :=
      if d.isMesh then
        (1,
         (match d.geomVerts with
          | some vs => vs.length
          | none => 0),
         if d.matField.present then 1 else 0)
      else (0, 0, 0)
    let rest := countsList cs
    (here.1 + rest.1, here.2.1 + rest.2.1, here.2.2 + rest.2.2)

def countsList : List Obj → ℕ × ℕ × ℕ
  | [] => (0, 0, 0)
  | c :: cs =>
    let r := countsObj c
    let rs := countsList cs
    (r.1 + rs.1, r.2.1 + rs.2.1, r.2.2 + rs.2.2)

end

/-- The summary the reporter logs (§4.4 of the design): counts, bounding
center and size, and the zero-size flag behind the
`size.lengthSq() === 0` warning. -/
structure DiagnosticSummary where
  meshCount : ℕ
  vertexCount : ℕ
  materialCount : ℕ
  boundingCenter : V3
  boundingSize : V3
  isZeroSize : Bool
deriving DecidableEq

/-- `logSceneGraphDetails(model)`: a read-only traversal. The second
component is the scene graph handed back to the caller — the function
performs no writes, so it is the input itself. An empty box reports center
and size `(0,0,0)`, as `Box3.getCenter`/`getSize` do. -/
def logSceneGraphDetails (model : Obj) : DiagnosticSummary × Obj :=
  let c := countsObj model
  let box := boundingBox model
  let center := match box with
    | some b => b.getCenter
    | none => (⟨0, 0, 0⟩ : V3)
  let size := match box with
    | some b => b.getSize
    | none => (⟨0, 0, 0⟩ : V3)
  ({ meshCount := c.1
     vertexCount := c.2.1
     materialCount := c.2.2
     boundingCenter := center
     boundingSize := size
     isZeroSize := decide (size.lengthSq = 0) },
   model)

theorem lengthSq_eq_zero_iff (v : V3) :
    v.lengthSq = 0 ↔ v.x = 0 ∧ v.y = 0 ∧ v.z = 0 := by
  unfold V3.lengthSq
  constructor
  · intro h
    have hx : v.x ^ 2 = 0 :=
      le_antisymm (by nlinarith [sq_nonneg v.y, sq_nonneg v.z]) (sq_nonneg v.x)
    have hy : v.y ^ 2 = 0 :=
      le_antisymm (by nlinarith [sq_nonneg v.x, sq_nonneg v.z]) (sq_nonneg v.y)
    have hz : v.z ^ 2 = 0 :=
      le_antisymm (by nlinarith [sq_nonneg v.x, sq_nonneg v.y]) (sq_nonneg v.z)
    exact ⟨pow_eq_zero_iff two_ne_zero |>.mp hx,
      pow_eq_zero_iff two_ne_zero |>.mp hy,
      pow_eq_zero_iff two_ne_zero |>.mp hz⟩
  · rintro ⟨hx, hy, hz⟩
    rw [hx, hy, hz]
    ring

/-- C8: the diagnostic reporter returns the scene graph unchanged (pure
read-only traversal), and its `isZeroSize` flag is true exactly when the
computed bounding size is zero in all three axes. -/
theorem reporter_read_only_zero_flag (model : Obj) :
    (logSceneGraphDetails model).2 = model ∧
      ((logSceneGraphDetails model).1.isZeroSize = true ↔
        (logSceneGraphDetails model).1.boundingSize.x = 0 ∧
          (logSceneGraphDetails model).1.boundingSize.y = 0 ∧
          (logSceneGraphDetails model).1.boundingSize.z = 0) := by
  refine ⟨rfl, ?_⟩
  simp only [logSceneGraphDetails, decide_eq_true_eq]
  exact lengthSq_eq_zero_iff _

/-! ### Bounding-Volume Camera Fitter -/

/-- The camera fields the fitter reads or writes. `projVersion` counts the
`updateProjectionMatrix()` calls, modelling the projection-matrix state. -/
structure Camera where
  position : V3
  fov : ℚ
  near : ℚ
  far : ℚ
  projVersion : ℕ
deriving DecidableEq

/-- The orbit-controls state the fitter writes. -/
structure Controls where
  target : V3
deriving DecidableEq

/-- Result of `centerCameraOnModel`: the mutated camera and controls, plus
the `console.error`/`console.warn` headlines it emits. -/
structure CameraFitResult where
  camera : Camera
  controls : Controls
  diagnostics : List String
deriving DecidableEq

/-- `Math.abs(maxDim / 2 / Math.tan(fov / 2))` followed by `*= 1.5`.
`tanHalfFov` is the value the host math library returns for
`Math.tan(fov * (Math.PI / 180) / 2)`. -/
def fitDistance (tanHalfFov maxDim : ℚ) : ℚ :=
  |maxDim / 2 / tanHalfFov| * (3 / 2)

/-- `centerCameraOnModel` (ifc-viewer.component.ts lines 530-588).
`sqrtQ` models `Math.sqrt` as used by `Vector3.distanceTo`. -/
def centerCameraOnModel (sqrtQ : ℚ → ℚ) (tanHalfFov : ℚ)
    (camera : Camera) (controls : Controls) (model : Obj) : CameraFitResult :=
  match boundingBox model with
  | none =>
    { camera := { camera with position := ⟨10, 10, 10⟩ }
      controls := { controls with target := ⟨0, 0, 0⟩ }
      diagnostics := ["Cannot center camera - bounding box is empty!"] }
  | some box =>
    let center := box.getCenter
    let maxDim := box.maxDim
    if maxDim = 0 then
      { camera := { camera with position := ⟨10, 10, 10⟩ }
        controls := { controls with target := ⟨0, 0, 0⟩ }
        diagnostics := ["Model has zero dimensions!"] }
    else
      let cameraZ := fitDistance tanHalfFov maxDim
      let camera2 :=
        { camera with
          position := ⟨center.x + cameraZ, center.y + cameraZ, center.z + cameraZ⟩ }
      let controls2 := { controls with target := center }
      let distanceToCenter := sqrtQ (V3.distSq camera2.position center)
      let recommendedNear := max (1 / 10) (distanceToCenter / 100)
      let recommendedFar := max 1000 ((distanceToCenter + maxDim) * 2)
      if camera2.near > recommendedNear ∨ camera2.far < recommendedFar then
        { camera :=
            { camera2 with
              near := recommendedNear
              far := recommendedFar
              projVersion := camera2.projVersion + 1 }
          controls := controls2
          diagnostics := ["Camera near/far planes may need adjustment:"] }
      else
        { camera := camera2
          controls := controls2
          diagnostics := [] }

/-- `fitCameraToModel` of the alternative component version (related document
part_004, lines 330-352): same distance formula, but the camera is moved
along the normalized direction from the volume center to its prior position
(`Vector3.normalize` divides by `length() || 1`), with no degenerate-case
branch. -/
def fitCameraToModel (sqrtQ : ℚ → ℚ) (tanHalfFov : ℚ)
    (camera : Camera) (controls : Controls) (obj : Obj) : Camera × Controls :=
  let box := boundingBox obj
  let size := match box with
    | some b => b.getSize
    | none => (⟨0, 0, 0⟩ : V3)
  let center := match box with
    | some b => b.getCenter
    | none => (⟨0, 0, 0⟩ : V3)
  let maxDim := max size.x (max size.y size.z)
  let cameraDistance := fitDistance tanHalfFov maxDim
  let v := camera.position - center
  let len := sqrtQ v.lengthSq
  let direction := V3.scale (1 / (if len = 0 then 1 else len)) v
  ({ camera with position := V3.scale cameraDistance direction + center },
   { controls with target := center })

/-! ### Vector helper lemmas -/

theorem V3.scale_scale (a b : ℚ) (v : V3) :
    V3.scale a (V3.scale b v) = V3.scale (a * b) v := by
  cases v
  simp only [V3.scale, V3.mk.injEq]
  refine ⟨by ring, by ring, by ring⟩

theorem V3.add_sub_cancel_right (a c : V3) : (a + c) - c = a := by
  cases a
  cases c
  simp only [V3.add_def, V3.sub_def, V3.mk.injEq]
  refine ⟨by ring, by ring, by ring⟩

theorem V3.lengthSq_scale (k : ℚ) (v : V3) :
    (V3.scale k v).lengthSq = k ^ 2 * v.lengthSq := by
  cases v
  simp only [V3.scale, V3.lengthSq]
  ring

/-! ### Fitter fixtures -/

/-- A camera in the default configuration, positioned off-center at (1,0,0). -/
def cam0 : Camera :=
  { position := ⟨1, 0, 0⟩, fov := 60, near := 1 / 10, far := 1000, projVersion := 0 }

def ctl0 : Controls := { target := ⟨0, 0, 0⟩ }

/-- A mesh whose two vertices span the cube [-5,5]^3: center (0,0,0),
size (10,10,10), maxDim 10. -/
def cubeModel : Obj := meshNode [⟨-5, -5, -5⟩, ⟨5, 5, 5⟩] baseMat

/-- The bounding box of `cubeModel`. -/
def box0 : Box3 := ⟨⟨-5, -5, -5⟩, ⟨5, 5, 5⟩⟩

/-- A mesh collapsed to the single point (1,2,3): non-empty box, zero size. -/
def pointModel : Obj := meshNode [⟨1, 2, 3⟩] baseMat

/-! ### Evaluation lemmas for the fixtures -/

theorem boundingBox_root0 : boundingBox root0 = none := rfl

theorem boundingBox_pointModel :
    boundingBox pointModel = some ⟨⟨1, 2, 3⟩, ⟨1, 2, 3⟩⟩ := by
  simp [boundingBox, pointModel, meshNode, bboxObj, bboxList, expandOpt,
    V3.add_def, List.foldl_cons, List.foldl_nil]

theorem maxDim_pointBox : Box3.maxDim ⟨⟨1, 2, 3⟩, ⟨1, 2, 3⟩⟩ = 0 := by
  simp [Box3.maxDim, Box3.getSize]

/-! ### Claims C4 and C9 -/

/-- C4: on an empty bounding volume, and on a volume of zero maximum extent,
the fitter never raises: it sets the camera position to (10,10,10) and the
target to the origin, and the two cases emit distinct diagnostic messages. -/
theorem centerCamera_degenerate_fallback (sqrtQ : ℚ → ℚ) (tanHalfFov : ℚ)
    (camera : Camera) (controls : Controls) (model : Obj) :
    (boundingBox model = none →
      (centerCameraOnModel sqrtQ tanHalfFov camera controls model).camera.position
          = ⟨10, 10, 10⟩ ∧
        (centerCameraOnModel sqrtQ tanHalfFov camera controls model).controls.target
          = ⟨0, 0, 0⟩ ∧
        (centerCameraOnModel sqrtQ tanHalfFov camera controls model).diagnostics
          = ["Cannot center camera - bounding box is empty!"]) ∧
      (∀ box : Box3, boundingBox model = some box → box.maxDim = 0 →
        (centerCameraOnModel sqrtQ tanHalfFov camera controls model).camera.position
            = ⟨10, 10, 10⟩ ∧
          (centerCameraOnModel sqrtQ tanHalfFov camera controls model).controls.target
            = ⟨0, 0, 0⟩ ∧
          (centerCameraOnModel sqrtQ tanHalfFov camera controls model).diagnostics
            = ["Model has zero dimensions!"]) ∧
      ("Cannot center camera - bounding box is empty!" : String)
        ≠ "Model has zero dimensions!" := by
  refine ⟨?_, ?_, by decide⟩
  · intro h
    simp [centerCameraOnModel, h]
  · intro box hbox hdim
    simp [centerCameraOnModel, hbox, hdim]

/-- Witness for C4: the empty root triggers the empty-box fallback, the
point-collapsed mesh triggers the zero-dimensions fallback. -/
theorem centerCamera_degenerate_fallback_witness :
    boundingBox root0 = none ∧
      (centerCameraOnModel (fun q => q) 1 cam0 ctl0 root0).camera.position
        = ⟨10, 10, 10⟩ ∧
      (centerCameraOnModel (fun q => q) 1 cam0 ctl0 root0).diagnostics
        = ["Cannot center camera - bounding box is empty!"] ∧
      boundingBox pointModel = some ⟨⟨1, 2, 3⟩, ⟨1, 2, 3⟩⟩ ∧
      (centerCameraOnModel (fun q => q) 1 cam0 ctl0 pointModel).diagnostics
        = ["Model has zero dimensions!"] := by
  have h1 := (centerCamera_degenerate_fallback (fun q => q) 1 cam0 ctl0 root0).1
    boundingBox_root0
  have h2 := (centerCamera_degenerate_fallback (fun q => q) 1 cam0 ctl0 pointModel).2.1
    ⟨⟨1, 2, 3⟩, ⟨1, 2, 3⟩⟩ boundingBox_pointModel maxDim_pointBox
  exact ⟨boundingBox_root0, h1.1, h1.2.2, boundingBox_pointModel, h2.2.2⟩

/-- C9: in both degenerate fallback branches the camera's near plane, far
plane, projection matrix and field of view are left unchanged; only the
camera position and the controls target are modified. -/
theorem centerCamera_degenerate_frame (sqrtQ : ℚ → ℚ) (tanHalfFov : ℚ)
    (camera : Camera) (controls : Controls) (model : Obj)
    (h : boundingBox model = none
      ∨ ∃ box : Box3, boundingBox model = some box ∧ box.maxDim = 0) :
    (centerCameraOnModel sqrtQ tanHalfFov camera controls model).camera.near
        = camera.near ∧
      (centerCameraOnModel sqrtQ tanHalfFov camera controls model).camera.far
        = camera.far ∧
      (centerCameraOnModel sqrtQ tanHalfFov camera controls model).camera.projVersion
        = camera.projVersion ∧
      (centerCameraOnModel sqrtQ tanHalfFov camera controls model).camera.fov
        = camera.fov ∧
      (centerCameraOnModel sqrtQ tanHalfFov camera controls model).camera.position
        = ⟨10, 10, 10⟩ ∧
      (centerCameraOnModel sqrtQ tanHalfFov camera controls model).controls.target
        = ⟨0, 0, 0⟩ := by
  rcases h with h | ⟨box, hbox, hdim⟩
  · simp [centerCameraOnModel, h]
  · simp [centerCameraOnModel, hbox, hdim]

/-- Witness for C9 at the point-collapsed mesh: clip planes and projection
version survive the zero-dimension fallback. -/
theorem centerCamera_degenerate_frame_witness :
    (boundingBox pointModel = some ⟨⟨1, 2, 3⟩, ⟨1, 2, 3⟩⟩
        ∧ Box3.maxDim ⟨⟨1, 2, 3⟩, ⟨1, 2, 3⟩⟩ = 0) ∧
      (centerCameraOnModel (fun q => q) 1 cam0 ctl0 pointModel).camera.near
        = cam0.near ∧
      (centerCameraOnModel (fun q => q) 1 cam0 ctl0 pointModel).camera.far
        = cam0.far ∧
      (centerCameraOnModel (fun q => q) 1 cam0 ctl0 pointModel).camera.projVersion
        = cam0.projVersion := by
  have h := centerCamera_degenerate_frame (fun q => q) 1 cam0 ctl0 pointModel
    (Or.inr ⟨⟨⟨1, 2, 3⟩, ⟨1, 2, 3⟩⟩, boundingBox_pointModel, maxDim_pointBox⟩)
  exact ⟨⟨boundingBox_pointModel, maxDim_pointBox⟩, h.1, h.2.1, h.2.2.1⟩

/-! ### Claim C5 -/

/-- C5: in the non-degenerate case the fitter replaces both clip planes with
the recommended values (and recomputes the projection matrix) if and only if
the configured near plane exceeds `max(0.1, distanceToCenter/100)` or the far
plane falls short of `max(1000, (distanceToCenter + maxDim) * 2)`; otherwise
both planes and the projection matrix are left unchanged. -/
theorem centerCamera_clip_plane_adjustment (sqrtQ : ℚ → ℚ) (tanHalfFov : ℚ)
    (camera : Camera) (controls : Controls) (model : Obj) (box : Box3)
    (hbox : boundingBox model = some box) (hdim : box.maxDim ≠ 0)
    (dC rn rf : ℚ)
    (hdC : dC = sqrtQ (V3.distSq
        ⟨box.getCenter.x + fitDistance tanHalfFov box.maxDim,
         box.getCenter.y + fitDistance tanHalfFov box.maxDim,
         box.getCenter.z + fitDistance tanHalfFov box.maxDim⟩
        box.getCenter))
    (hrn : rn = max (1 / 10) (dC / 100))
    (hrf : rf = max 1000 ((dC + box.maxDim) * 2)) :
    (camera.near > rn ∨ camera.far < rf →
      (centerCameraOnModel sqrtQ tanHalfFov camera controls model).camera.near = rn ∧
        (centerCameraOnModel sqrtQ tanHalfFov camera controls model).camera.far = rf ∧
        (centerCameraOnModel sqrtQ tanHalfFov camera controls model).camera.projVersion
          = camera.projVersion + 1) ∧
      (¬(camera.near > rn ∨ camera.far < rf) →
        (centerCameraOnModel sqrtQ tanHalfFov camera controls model).camera.near
            = camera.near ∧
          (centerCameraOnModel sqrtQ tanHalfFov camera controls model).camera.far
            = camera.far ∧
          (centerCameraOnModel sqrtQ tanHalfFov camera controls model).camera.projVersion
            = camera.projVersion) := by
  subst hrn hrf hdC
  constructor
  · intro hcond
    simp only [centerCameraOnModel, hbox]
    rw [if_neg hdim, if_pos hcond]
    exact ⟨rfl, rfl, rfl⟩
  · intro hcond
    simp only [centerCameraOnModel, hbox]
    rw [if_neg hdim, if_neg hcond]
    exact ⟨rfl, rfl, rfl⟩

/-! ### More fixture evaluation lemmas -/

/-- Identity oracle for `Math.sqrt` (any oracle is admissible where the
result does not depend on the square root's value). -/
def sqrtId : ℚ → ℚ := fun q => q

theorem boundingBox_cubeModel : boundingBox cubeModel = some box0 := by
  simp only [boundingBox, cubeModel, meshNode, bboxObj, bboxList, box0,
    List.foldl_cons, List.foldl_nil, expandOpt, Box3.expandByPoint, V3.add_def]
  norm_num [min_def, max_def]

theorem maxDim_box0 : box0.maxDim = 10 := by
  norm_num [box0, Box3.maxDim, Box3.getSize]

theorem getCenter_box0 : box0.getCenter = ⟨0, 0, 0⟩ := by
  norm_num [box0, Box3.getCenter]

theorem fitDistance_one_ten : fitDistance 1 10 = 15 / 2 := by
  rw [fitDistance, abs_of_nonneg] <;> norm_num

/-- A camera whose configured far plane is far too small for the model. -/
def camSmallFar : Camera :=
  { position := ⟨1, 0, 0⟩, fov := 60, near := 1 / 10, far := 10, projVersion := 0 }

/-- Witness for C5 at the cube model and a camera with far plane 10: the
condition holds via its second disjunct, and both planes are replaced (the
projection matrix is recomputed). -/
theorem centerCamera_clip_plane_adjustment_witness :
    (camSmallFar.near >
        max (1 / 10)
          (sqrtId (V3.distSq
              ⟨box0.getCenter.x + fitDistance 1 box0.maxDim,
               box0.getCenter.y + fitDistance 1 box0.maxDim,
               box0.getCenter.z + fitDistance 1 box0.maxDim⟩
              box0.getCenter) / 100)
      ∨ camSmallFar.far <
          max 1000
            ((sqrtId (V3.distSq
                ⟨box0.getCenter.x + fitDistance 1 box0.maxDim,
                 box0.getCenter.y + fitDistance 1 box0.maxDim,
                 box0.getCenter.z + fitDistance 1 box0.maxDim⟩
                box0.getCenter) + box0.maxDim) * 2)) ∧
      (centerCameraOnModel sqrtId 1 camSmallFar ctl0 cubeModel).camera.projVersion
        = camSmallFar.projVersion + 1 := by
  have hcond : camSmallFar.near >
        max (1 / 10)
          (sqrtId (V3.distSq
              ⟨box0.getCenter.x + fitDistance 1 box0.maxDim,
               box0.getCenter.y + fitDistance 1 box0.maxDim,
               box0.getCenter.z + fitDistance 1 box0.maxDim⟩
              box0.getCenter) / 100)
      ∨ camSmallFar.far <
          max 1000
            ((sqrtId (V3.distSq
                ⟨box0.getCenter.x + fitDistance 1 box0.maxDim,
                 box0.getCenter.y + fitDistance 1 box0.maxDim,
                 box0.getCenter.z + fitDistance 1 box0.maxDim⟩
                box0.getCenter) + box0.maxDim) * 2) :=
    Or.inr (lt_of_lt_of_le (by norm_num [camSmallFar]) (le_max_left _ _))
  exact ⟨hcond,
    ((centerCamera_clip_plane_adjustment sqrtId 1 camSmallFar ctl0 cubeModel box0
        boundingBox_cubeModel (by norm_num [maxDim_box0]) _ _ _ rfl rfl rfl).1
      hcond).2.2⟩

/-! ### Claim C3 -/

/-- Counterexample to C3 for the pipeline's fitter `centerCameraOnModel`:
for the cube model (bounding box [-5,5]^3, center (0,0,0), maxDim 10,
tan(fov/2) modelled as 1, so distance = |10/2/1| * 1.5 = 15/2) with the
camera previously at (1,0,0) — preserved direction (1,0,0) — the claim
demands the new position center + direction * distance = (15/2, 0, 0) at
squared distance (15/2)^2 from the center. The code instead adds the
distance to every coordinate: the position is (15/2, 15/2, 15/2), which is
not the claimed point and whose squared distance from the center is
3 * (15/2)^2, not (15/2)^2. -/
theorem centerCamera_direction_counterexample :
    (centerCameraOnModel sqrtId 1 cam0 ctl0 cubeModel).camera.position
        = ⟨15 / 2, 15 / 2, 15 / 2⟩ ∧
      (centerCameraOnModel sqrtId 1 cam0 ctl0 cubeModel).camera.position
        ≠ ⟨15 / 2, 0, 0⟩ ∧
      V3.distSq (⟨15 / 2, 15 / 2, 15 / 2⟩ : V3) ⟨0, 0, 0⟩ ≠ fitDistance 1 10 ^ 2 := by
  have hpos : (centerCameraOnModel sqrtId 1 cam0 ctl0 cubeModel).camera.position
      = ⟨15 / 2, 15 / 2, 15 / 2⟩ := by
    simp only [centerCameraOnModel, boundingBox_cubeModel]
    rw [if_neg (by norm_num [maxDim_box0] : ¬ box0.maxDim = 0)]
    split_ifs <;>
      simp [maxDim_box0, getCenter_box0, fitDistance_one_ten]
  refine ⟨hpos, ?_, ?_⟩
  · rw [hpos]
    intro h
    rw [V3.mk.injEq] at h
    norm_num at h
  · rw [fitDistance_one_ten]
    norm_num [V3.distSq, V3.lengthSq, V3.sub_def]

/-- C3 (amended): in the non-degenerate case the pipeline's fitter
`centerCameraOnModel` computes distance = |maxDim/2/tan(fov/2)| * 1.5, adds
that distance to every coordinate of the bounding-volume center — placing the
camera at center + (d,d,d), squared distance 3·d² from the center, regardless
of the prior camera position — and sets the look-at target to the center. The
alternative component's `fitCameraToModel` is the variant that preserves the
direction from the center to the camera's prior position: with an exact
square root at the relevant point and a camera not at the center it places
the camera at center + direction · d, at exactly squared distance d² from the
center (≈12.99 world units for size [10,5,10] and fov 60°), target center. -/
theorem fitter_position_behaviour :
    (∀ (sqrtQ : ℚ → ℚ) (tanHalfFov : ℚ) (camera : Camera) (controls : Controls)
        (model : Obj) (box : Box3),
      boundingBox model = some box → box.maxDim ≠ 0 →
        (centerCameraOnModel sqrtQ tanHalfFov camera controls model).camera.position
            = ⟨box.getCenter.x + fitDistance tanHalfFov box.maxDim,
               box.getCenter.y + fitDistance tanHalfFov box.maxDim,
               box.getCenter.z + fitDistance tanHalfFov box.maxDim⟩ ∧
          (centerCameraOnModel sqrtQ tanHalfFov camera controls model).controls.target
            = box.getCenter ∧
          V3.distSq
              (centerCameraOnModel sqrtQ tanHalfFov camera controls model).camera.position
              box.getCenter
            = 3 * fitDistance tanHalfFov box.maxDim ^ 2) ∧
      (∀ (sqrtQ : ℚ → ℚ) (tanHalfFov : ℚ) (camera : Camera) (controls : Controls)
          (obj : Obj) (box : Box3) (L : ℚ),
        boundingBox obj = some box →
          L = sqrtQ (V3.lengthSq (camera.position - box.getCenter)) →
          L ^ 2 = V3.lengthSq (camera.position - box.getCenter) →
          0 < L →
          (fitCameraToModel sqrtQ tanHalfFov camera controls obj).1.position
              = V3.scale (fitDistance tanHalfFov box.maxDim / L)
                  (camera.position - box.getCenter) + box.getCenter ∧
            V3.distSq (fitCameraToModel sqrtQ tanHalfFov camera controls obj).1.position
                box.getCenter
              = fitDistance tanHalfFov box.maxDim ^ 2 ∧
            (fitCameraToModel sqrtQ tanHalfFov camera controls obj).2.target
              = box.getCenter) := by
  constructor
  · intro sqrtQ tanHalfFov camera controls model box hbox hdim
    simp only [centerCameraOnModel, hbox]
    rw [if_neg hdim]
    split_ifs <;>
      exact ⟨rfl, by trivial, by simp only [V3.distSq, V3.lengthSq, V3.sub_def]; ring⟩
  · intro sqrtQ tanHalfFov camera controls obj box L hbox hL hL2 hL0
    simp only [fitCameraToModel, hbox]
    rw [show max box.getSize.x (max box.getSize.y box.getSize.z) = box.maxDim from rfl]
    rw [← hL, if_neg hL0.ne']
    refine ⟨?_, ?_, by trivial⟩
    · rw [V3.scale_scale, mul_one_div]
    · rw [V3.scale_scale, mul_one_div]
      simp only [V3.distSq]
      rw [V3.add_sub_cancel_right, V3.lengthSq_scale, ← hL2, div_pow]
      exact div_mul_cancel₀ _ (pow_ne_zero 2 hL0.ne')

/-- A camera at (3,4,0): direction from the cube center (0,0,0) to it has
length 5. -/
def camOffCenter : Camera :=
  { position := ⟨3, 4, 0⟩, fov := 60, near := 1 / 10, far := 1000, projVersion := 0 }

/-- A square-root oracle that is exact at 25 (the only point where the
witness run consults it). -/
def sqrt25 : ℚ → ℚ := fun q => if q = 25 then 5 else 0

/-- Witness for the amended C3 at the cube model: `centerCameraOnModel`
targets the center, and `fitCameraToModel` places the camera along the
preserved direction at exactly the computed distance. -/
theorem fitter_position_behaviour_witness :
    box0.maxDim ≠ 0 ∧
      (centerCameraOnModel sqrtId 1 cam0 ctl0 cubeModel).controls.target
        = box0.getCenter ∧
      (0 : ℚ) < 5 ∧
      (fitCameraToModel sqrt25 1 camOffCenter ctl0 cubeModel).1.position
        = V3.scale (fitDistance 1 box0.maxDim / 5)
            (camOffCenter.position - box0.getCenter) + box0.getCenter ∧
      V3.distSq (fitCameraToModel sqrt25 1 camOffCenter ctl0 cubeModel).1.position
          box0.getCenter
        = fitDistance 1 box0.maxDim ^ 2 := by
  have hA := fitter_position_behaviour.1 sqrtId 1 cam0 ctl0 cubeModel box0
    boundingBox_cubeModel (by norm_num [maxDim_box0])
  have hB := fitter_position_behaviour.2 sqrt25 1 camOffCenter ctl0 cubeModel box0 5
    boundingBox_cubeModel
    (by norm_num [sqrt25, camOffCenter, getCenter_box0, V3.sub_def, V3.lengthSq])
    (by norm_num [camOffCenter, getCenter_box0, V3.sub_def, V3.lengthSq])
    (by norm_num)
  exact ⟨by norm_num [maxDim_box0], hA.2.1, by norm_num, hB.1, hB.2.1⟩
